import Mathlib

/-!
Verification of the DB_Management showcase application (src/main.py) against
its natural-language specification.

The file shallowly embeds the two routines with actual logic — the seed-data
generator `generate_dummy_data` and the order transaction
`process_order_transaction` — together with the trigger semantics created by
`create_triggers`, the DDL routine `modify_database_structure`, and the
credential hashing `hash_password`.  SQLite state is modelled as explicit
lists of rows; randomness is modelled as an explicit oracle of choice
functions; SQL exceptions and Python exceptions are modelled with
`Except`/`Option`; machine-independent exact arithmetic (`Nat`, `Int`)
stands in for SQLite INTEGER and REAL columns — every money value the
program stores or computes is a whole number of cents, so REAL columns are
carried as exact integer cent counts.
-/

/-! ## SHA-256 (the function `hashlib.sha256(...).hexdigest()` computes)

`hash_password` in src/main.py delegates to Python's `hashlib.sha256` on the
UTF-8 encoding of the password and stores the lowercase hex digest.  The
library primitive is embedded concretely as FIPS 180-4 SHA-256 over byte
lists, executable by the kernel.  Words are `Nat` reduced mod 2^32. -/

/-- Truncate to a 32-bit word. -/
def w32 (x : Nat) : Nat := x % 4294967296

/-- Right-rotate a 32-bit word by `n` (0 < n < 32, argument already < 2^32). -/
def rotr32 (n x : Nat) : Nat := (x >>> n) + ((x % 2 ^ n) <<< (32 - n))

/-- SHA-256 Ch(x,y,z). -/
def shaCh (x y z : Nat) : Nat := (x &&& y) ^^^ ((x ^^^ 4294967295) &&& z)

/-- SHA-256 Maj(x,y,z). -/
def shaMaj (x y z : Nat) : Nat := (x &&& y) ^^^ (x &&& z) ^^^ (y &&& z)

/-- SHA-256 Σ0. -/
def bigSigma0 (x : Nat) : Nat := rotr32 2 x ^^^ rotr32 13 x ^^^ rotr32 22 x

/-- SHA-256 Σ1. -/
def bigSigma1 (x : Nat) : Nat := rotr32 6 x ^^^ rotr32 11 x ^^^ rotr32 25 x

/-- SHA-256 σ0. -/
def smallSigma0 (x : Nat) : Nat := rotr32 7 x ^^^ rotr32 18 x ^^^ (x >>> 3)

/-- SHA-256 σ1. -/
def smallSigma1 (x : Nat) : Nat := rotr32 17 x ^^^ rotr32 19 x ^^^ (x >>> 10)

/-- The 64 SHA-256 round constants. -/
def shaK : List Nat :=
  [1116352408, 1899447441, 3049323471, 3921009573,
   961987163, 1508970993, 2453635748, 2870763221,
   3624381080, 310598401, 607225278, 1426881987,
   1925078388, 2162078206, 2614888103, 3248222580,
   3835390401, 4022224774, 264347078, 604807628,
   770255983, 1249150122, 1555081692, 1996064986,
   2554220882, 2821834349, 2952996808, 3210313671,
   3336571891, 3584528711, 113926993, 338241895,
   666307205, 773529912, 1294757372, 1396182291,
   1695183700, 1986661051, 2177026350, 2456956037,
   2730485921, 2820302411, 3259730800, 3345764771,
   3516065817, 3600352804, 4094571909, 275423344,
   430227734, 506948616, 659060556, 883997877,
   958139571, 1322822218, 1537002063, 1747873779,
   1955562222, 2024104815, 2227730452, 2361852424,
   2428436474, 2756734187, 3204031479, 3329325298]

/-- The eight-word SHA-256 working state. -/
structure Hash8 where
  a : Nat
  b : Nat
  c : Nat
  d : Nat
  e : Nat
  f : Nat
  g : Nat
  h : Nat
deriving DecidableEq

/-- The SHA-256 initial hash value. -/
def shaH0 : Hash8 :=
  ⟨1779033703, 3144134277, 1013904242, 2773480762, 1359893119, 2600822924, 528734635, 1541459225⟩

/-- One SHA-256 compression round on state `st` with round constant and
message-schedule word `kw`. -/
def shaRound (st : Hash8) (kw : Nat × Nat) : Hash8 :=
  let t1 := w32 (st.h + bigSigma1 st.e + shaCh st.e st.f st.g + kw.1 + kw.2)
  let t2 := w32 (bigSigma0 st.a + shaMaj st.a st.b st.c)
  ⟨w32 (t1 + t2), st.a, st.b, st.c, w32 (st.d + t1), st.e, st.f, st.g⟩

/-- Big-endian words (16 of them) of a 64-byte chunk. -/
def wordsOfChunk (chunk : List Nat) : List Nat :=
  (List.range 16).map (fun j =>
    chunk.getD (4 * j) 0 * 16777216 + chunk.getD (4 * j + 1) 0 * 65536 +
      chunk.getD (4 * j + 2) 0 * 256 + chunk.getD (4 * j + 3) 0)

/-- Extend the 16-word schedule to 64 words. -/
def extendSchedule (w16 : List Nat) : List Nat :=
  (List.range 48).foldl (fun acc _ =>
    let i := acc.length
    acc ++ [w32 (smallSigma1 (acc.getD (i - 2) 0) + acc.getD (i - 7) 0 +
                 smallSigma0 (acc.getD (i - 15) 0) + acc.getD (i - 16) 0)]) w16

/-- Process one 64-byte chunk. -/
def processBlock (st : Hash8) (chunk : List Nat) : Hash8 :=
  let w := extendSchedule (wordsOfChunk chunk)
  let s := (shaK.zip w).foldl shaRound st
  ⟨w32 (st.a + s.a), w32 (st.b + s.b), w32 (st.c + s.c), w32 (st.d + s.d),
   w32 (st.e + s.e), w32 (st.f + s.f), w32 (st.g + s.g), w32 (st.h + s.h)⟩

/-- `n` big-endian bytes of `x`. -/
def beBytes (n x : Nat) : List Nat :=
  (List.range n).map (fun i => x / 2 ^ (8 * (n - 1 - i)) % 256)

/-- SHA-256 padding: append 0x80, zero bytes to 56 mod 64, then the 8-byte
big-endian bit length. -/
def padMessage (msg : List Nat) : List Nat :=
  msg ++ [128] ++ List.replicate ((119 - msg.length % 64) % 64) 0 ++ beBytes 8 (8 * msg.length)

/-- Split into 64-byte chunks (structural fuel = list length, so the kernel
can evaluate it). -/
def chunks64 : Nat → List Nat → List (List Nat)
  | 0, _ => []
  | _, [] => []
  | fuel + 1, x :: xs => (x :: xs).take 64 :: chunks64 fuel ((x :: xs).drop 64)

/-- SHA-256 digest of a byte list, as the eight 32-bit state words. -/
def sha256Words (msg : List Nat) : List Nat :=
  let padded := padMessage msg
  let st := (chunks64 padded.length padded).foldl processBlock shaH0
  [st.a, st.b, st.c, st.d, st.e, st.f, st.g, st.h]

/-- Lowercase hex digit. -/
def hexDigit (n : Nat) : Char := "0123456789abcdef".data.getD n '0'

/-- A 32-bit word as 8 lowercase hex characters. -/
def toHex8 (x : Nat) : List Char := (List.range 8).map (fun j => hexDigit (x / 16 ^ (7 - j) % 16))

/-- UTF-8 encoding of one character (what Python's `str.encode()` emits). -/
def utf8Char (c : Char) : List Nat :=
  let n := c.toNat
  if n < 128 then [n]
  else if n < 2048 then [192 + n / 64, 128 + n % 64]
  else if n < 65536 then [224 + n / 4096, 128 + n / 64 % 64, 128 + n % 64]
  else [240 + n / 262144, 128 + n / 4096 % 64, 128 + n / 64 % 64, 128 + n % 64]

/-- UTF-8 encoding of a string (Python's `str.encode()`). -/
def utf8Encode (s : String) : List Nat := s.data.flatMap utf8Char

/-- Lowercase hex digest of the SHA-256 of a byte list
(`hashlib.sha256(b).hexdigest()`). -/
def sha256Hex (msg : List Nat) : String :=
  String.mk (((sha256Words msg).map toHex8).flatten)

/-- `DatabaseManager.hash_password` (src/main.py:106-109): SHA-256 hex digest
of the UTF-8 encoded password. -/
def hash_password (password : String) : String := sha256Hex (utf8Encode password)

/-- FIPS 180-4 test vector: the embedding agrees with SHA-256 on "abc". -/
example : hash_password "abc" =
    "ba7816bf8f01cfea414140de5dae2223b00361a396177a9cb410ff61f20015ad" := by decide

/-- FIPS 180-4 test vector: the empty message. -/
example : hash_password "" =
    "e3b0c44298fc1c149afbf4c8996fb92427ae41e4649b934ca495991b7852b855" := by decide

/-! ## Relational state

Rows of the five tables created in `setup_database` (src/main.py:33-103),
restricted to the columns the verified routines read or write.  SQLite's
`stock INTEGER` column carries no CHECK constraint, so stock is an `Int` and
may in principle store negative values.  REAL money columns (`price`,
`total_amount`) hold cent-precision values throughout the program, modelled
as exact integer cent counts. -/

/-- A `users` row. -/
structure User where
  id : Nat
  username : String
  email : String
  password_hash : String
  status : String
deriving DecidableEq

/-- A `products` row. -/
structure Product where
  id : Nat
  name : String
  category : String
  price : Int
  stock : Int
deriving DecidableEq

/-- An `orders` row (`order_date` is a days-backdated offset, an opaque stamp
for this development). -/
structure Order where
  id : Nat
  user_id : Nat
  total_amount : Int
  order_date : Nat
  status : String
deriving DecidableEq

/-- An `order_items` row. -/
structure OrderItem where
  id : Nat
  order_id : Nat
  product_id : Nat
  quantity : Nat
  price : Int
deriving DecidableEq

/-- The JSON payload `json.dumps({..})` written by the order transaction's
audit insert, kept structured. -/
structure AuditDetails where
  order_id : Nat
  total : Int
deriving DecidableEq

/-- An `audit_log` row. -/
structure AuditEntry where
  table_name : String
  action : String
  user_id : Option Nat
  details : AuditDetails
deriving DecidableEq

/-- The database state: the five tables, whether `create_triggers` has run
(the triggers exist only after it), and the AUTOINCREMENT sequences of the
`users` and `orders` tables. -/
structure DB where
  users : List User
  products : List Product
  orders : List Order
  order_items : List OrderItem
  audit_log : List AuditEntry
  triggers_installed : Bool
  next_user_id : Nat
  next_order_id : Nat
deriving DecidableEq

/-- `SELECT ... FROM products WHERE id = ?` with `fetchone()`: the first row
with the given id. -/
def findProduct (db : DB) (pid : Nat) : Option Product :=
  db.products.find? (fun p => p.id == pid)

/-- The stock column of the product row with the given id. -/
def stockOf (db : DB) (pid : Nat) : Option Int :=
  (findProduct db pid).map (fun p => p.stock)

/-- `DatabaseManager.create_triggers` (src/main.py:351-389): registers the
triggers; from then on they fire on the statements they watch. -/
def create_triggers (db : DB) : DB := { db with triggers_installed := true }

/-- `DatabaseManager.create_user_secure` (src/main.py:111-121): inserts a user
with the hashed password (status takes the schema default, `active`) and
returns the new rowid. -/
def create_user_secure (db : DB) (username email password : String) : DB × Nat :=
  let uid := db.next_user_id
  let u : User := { id := uid, username := username, email := email,
                    password_hash := hash_password password, status := "active" }
  ({ db with users := db.users ++ [u], next_user_id := uid + 1 }, uid)

/-! ## The order transaction (src/main.py:392-449)

`process_order_transaction` validates every line item (product exists and has
stock ≥ requested quantity) while accumulating the total, then inserts the
order row, then for each item re-reads the price, inserts the `order_items`
row — on which the `update_product_stock` trigger fires when installed — and
explicitly decrements stock, then appends one audit row and commits.  Any
exception rolls the whole transaction back to the entry state and the call
returns `False`. -/

/-- A requested line item, `{'product_id': ..., 'quantity': ...}`. -/
structure ItemReq where
  product_id : Nat
  quantity : Nat
deriving DecidableEq

/-- The validation loop (src/main.py:406-412): walk the items; fail on a
missing product or `stock < quantity`, otherwise accumulate
`price * quantity` into the total. -/
def computeTotal (db : DB) : List ItemReq → Option Int
  | [] => some 0
  | it :: rest =>
    match findProduct db it.product_id with
    | none => none
    | some p =>
      if p.stock < (it.quantity : Int) then none
      else (computeTotal db rest).map (fun t => p.price * (it.quantity : Int) + t)

/-- The `update_product_stock` trigger (src/main.py:368-376): AFTER INSERT ON
order_items, decrement the product's stock where `stock >= NEW.quantity`. -/
def applyStockTrigger (db : DB) (pid quantity : Nat) : DB :=
  if db.triggers_installed then
    { db with products := db.products.map (fun p =>
        if p.id = pid ∧ (quantity : Int) ≤ p.stock then
          { p with stock := p.stock - (quantity : Int) } else p) }
  else db

/-- `INSERT INTO order_items ...` (src/main.py:426-429) and the trigger it
fires. -/
def insertOrderItem (db : DB) (oid pid quantity : Nat) (price : Int) : DB :=
  let db1 := { db with order_items := db.order_items ++
      [{ id := db.order_items.length + 1, order_id := oid, product_id := pid,
         quantity := quantity, price := price }] }
  applyStockTrigger db1 pid quantity

/-- The unconditional `UPDATE products SET stock = stock - ?`
(src/main.py:431-434). -/
def explicitStockDecrement (db : DB) (pid quantity : Nat) : DB :=
  { db with products := db.products.map (fun p =>
      if p.id = pid then { p with stock := p.stock - (quantity : Int) } else p) }

/-- One pass of the write loop (src/main.py:422-434): re-read the price
(`fetchone()[0]` raises if the row vanished, modelled as `none`), insert the
item row, decrement stock. -/
def writeItem (db : DB) (oid : Nat) (it : ItemReq) : Option DB :=
  match findProduct db it.product_id with
  | none => none
  | some p =>
    some (explicitStockDecrement (insertOrderItem db oid it.product_id it.quantity p.price)
      it.product_id it.quantity)

/-- The whole write loop over the items. -/
def writeItems (db : DB) (oid : Nat) : List ItemReq → Option DB
  | [] => some db
  | it :: rest => (writeItem db oid it).bind (fun db1 => writeItems db1 oid rest)

/-- `DatabaseManager.process_order_transaction` (src/main.py:392-449).
Returns the Python boolean result and the committed state; on any raised
error the rollback restores the entry state. -/
def process_order_transaction (db : DB) (user_id : Nat) (items : List ItemReq) : Bool × DB :=
  match computeTotal db items with
  | none => (false, db)
  | some total =>
    let oid := db.next_order_id
    let o : Order := { id := oid, user_id := user_id, total_amount := total,
                       order_date := 0, status := "pending" }
    let db1 := { db with orders := db.orders ++ [o], next_order_id := oid + 1 }
    match writeItems db1 oid items with
    | none => (false, db)
    | some db2 =>
      (true, { db2 with audit_log := db2.audit_log ++
        [{ table_name := "orders", action := "CREATE", user_id := some user_id,
           details := { order_id := oid, total := total } }] })

/-! ## Order deletion under `prevent_order_deletion` (src/main.py:379-386)

`DELETE FROM orders WHERE id = ?` with the BEFORE DELETE trigger: if the
order still has `order_items` rows the trigger raises ABORT and the statement
leaves the database untouched.  The code never issues `PRAGMA foreign_keys`,
so SQLite's default leaves the `ON DELETE CASCADE` clauses unenforced and a
permitted delete removes only the order row. -/

/-- The delete statement, as `Except`: `.error` models the trigger ABORT. -/
def delete_order (db : DB) (oid : Nat) : Except String DB :=
  if db.triggers_installed ∧ db.orders.any (fun o => o.id == oid &&
      db.order_items.any (fun it => it.order_id == o.id)) then
    .error "Cannot delete order with items"
  else
    .ok { db with orders := db.orders.filter (fun o => !(o.id == oid)) }

/-- Run the delete and keep the prior state when it aborts. -/
def attempt_delete_order (db : DB) (oid : Nat) : Bool × DB :=
  match delete_order db oid with
  | .error _ => (false, db)
  | .ok db1 => (true, db1)

/-! ## `modify_database_structure` (src/main.py:311-348)

The routine runs `ALTER TABLE users ADD COLUMN last_login`, catching the
`sqlite3.OperationalError` a duplicate column raises and continuing, then
creates the view and the temporary table with IF NOT EXISTS. -/

/-- The schema state the routine touches. -/
structure Schema where
  users_columns : List String
  has_active_user_orders_view : Bool
  has_session_data_table : Bool
deriving DecidableEq

/-- `ALTER TABLE users ADD COLUMN c`: errors when the column exists. -/
def alter_table_add_column (cols : List String) (c : String) : Except String (List String) :=
  if c ∈ cols then .error ("duplicate column name: " ++ c) else .ok (cols ++ [c])

/-- `DatabaseManager.modify_database_structure`: the DDL error is caught and
swallowed, so the routine always completes. -/
def modify_database_structure (s : Schema) : Except String Schema :=
  let cols := match alter_table_add_column s.users_columns "last_login" with
    | .ok cs => cs
    | .error _ => s.users_columns
  .ok { users_columns := cols, has_active_user_orders_view := true,
        has_session_data_table := true }

/-! ## The seed generator (src/main.py:124-196)

`generate_dummy_data` clears the four tables, inserts `num_users` users and
`num_products` products, reads back the ids of users with `status='active'`
and the `(id, price)` pairs of all products, and then builds exactly 200
orders: each draws a uniformly random active user with `random.choice`
(which raises on an empty list), a status, a backdating offset, an item count
`randint(1, 5)`, and per item a uniformly chosen product and a quantity
`randint(1, 5)`; the order's total is accumulated as the sum of
`price * quantity` over its items and written back to the order row.

Randomness is an explicit oracle of choice functions; `random.choice` on a
non-empty list is modelled by indexing with the draw reduced mod the length,
and `randint(a, b)` by `a + draw % (b - a + 1)`. -/

/-- The stream of random draws `generate_dummy_data` consumes, one function
per call site of the `random` module. -/
structure RandomOracle where
  userSuffix : Nat → String
  userStatus : Nat → Nat
  prodSuffix : Nat → String
  prodCat : Nat → Nat
  prodPrice : Nat → Int
  prodStock : Nat → Nat
  ordUser : Nat → Nat
  ordDays : Nat → Nat
  ordStatus : Nat → Nat
  ordNumItems : Nat → Nat
  itemProd : Nat → Nat → Nat
  itemQty : Nat → Nat → Nat

/-- `random.choice` on a possibly empty list: raises IndexError when empty,
otherwise returns an element selected by the draw. -/
def pyChoice {α : Type} (l : List α) (draw : Nat) : Except String α :=
  match l with
  | [] => .error "Cannot choose from an empty sequence"
  | x :: xs => .ok ((x :: xs).get ⟨draw % (xs.length + 1), Nat.mod_lt _ (Nat.succ_pos _)⟩)

/-- `random.choice` on a list known non-empty at every call site. -/
def listChoice {α : Type} (l : List α) (d : α) (draw : Nat) : α :=
  l.getD (draw % l.length) d

/-- The `statuses` list of src/main.py:138. -/
def userStatuses : List String := ["active", "inactive", "suspended"]

/-- The `categories` list of src/main.py:137. -/
def productCategories : List String := ["Electronics", "Clothing", "Books", "Home", "Sports"]

/-- The order status candidates of src/main.py:175. -/
def orderStatuses : List String := ["pending", "completed", "cancelled"]

/-- The user-insertion loop (src/main.py:140-148); AUTOINCREMENT assigns
rowids 1, 2, ... on the freshly cleared table. -/
def gen_users (r : RandomOracle) (num_users : Nat) : List User :=
  (List.range num_users).map (fun i =>
    let username := "user_" ++ toString i ++ "_" ++ r.userSuffix i
    { id := i + 1, username := username, email := username ++ "@example.com",
      password_hash := hash_password ("password" ++ toString i),
      status := listChoice userStatuses "active" (r.userStatus i) })

/-- The product-insertion loop (src/main.py:151-159); prices stand for
`round(random.uniform(10, 1000), 2)` and stocks for `randint(0, 500)`. -/
def gen_products (r : RandomOracle) (num_products : Nat) : List Product :=
  (List.range num_products).map (fun i =>
    { id := i + 1, name := "Product_" ++ toString i ++ "_" ++ r.prodSuffix i,
      category := listChoice productCategories "Home" (r.prodCat i),
      price := r.prodPrice i,
      stock := Int.ofNat (r.prodStock i % 501) })

/-- The inner item loop of one order (src/main.py:181-190): `n` more items to
draw, `j` the index of the next draw, every produced row carrying the order's
id and the chosen product's id and current price. -/
def gen_items (r : RandomOracle) (prods : List (Nat × Int)) (k oid : Nat) :
    Nat → Nat → Except String (List OrderItem)
  | 0, _ => .ok []
  | n + 1, j =>
    match pyChoice prods (r.itemProd k j) with
    | .error e => .error e
    | .ok pr =>
      match gen_items r prods k oid n (j + 1) with
      | .error e => .error e
      | .ok rest =>
        .ok ({ id := 0, order_id := oid, product_id := pr.1,
               quantity := 1 + r.itemQty k j % 5, price := pr.2 } :: rest)

/-- One iteration of the order loop (src/main.py:168-193): draw the owning
user from the active ids, draw a status and a date offset, generate
`randint(1,5)` items, and store the accumulated total on the order. -/
def gen_one_order (r : RandomOracle) (activeIds : List Nat) (prods : List (Nat × Int))
    (k oid : Nat) : Except String (Order × List OrderItem) :=
  match pyChoice activeIds (r.ordUser k) with
  | .error e => .error e
  | .ok uid =>
    match gen_items r prods k oid (1 + r.ordNumItems k % 5) 0 with
    | .error e => .error e
    | .ok its =>
      .ok ({ id := oid, user_id := uid,
             total_amount := (its.map (fun it => it.price * (it.quantity : Int))).sum,
             order_date := r.ordDays k % 366,
             status := listChoice orderStatuses "pending" (r.ordStatus k) }, its)

/-- The order loop: `n` orders remaining, `k` the loop index, `oid` the next
AUTOINCREMENT order id. -/
def gen_orders (r : RandomOracle) (activeIds : List Nat) (prods : List (Nat × Int)) :
    Nat → Nat → Nat → Except String (List Order × List OrderItem)
  | 0, _, _ => .ok ([], [])
  | n + 1, k, oid =>
    match gen_one_order r activeIds prods k oid with
    | .error e => .error e
    | .ok p =>
      match gen_orders r activeIds prods n (k + 1) (oid + 1) with
      | .error e => .error e
      | .ok rest => .ok (p.1 :: rest.1, p.2 ++ rest.2)

/-- The state `generate_dummy_data` commits. -/
structure GenResult where
  users : List User
  products : List Product
  orders : List Order
  order_items : List OrderItem
deriving DecidableEq

/-- The active user ids `SELECT id FROM users WHERE status = 'active'` reads
back (src/main.py:162-163). -/
def activeIdsOf (r : RandomOracle) (num_users : Nat) : List Nat :=
  ((gen_users r num_users).filter (fun u => u.status == "active")).map (fun u => u.id)

/-- The `(id, price)` pairs `SELECT id, price FROM products` reads back
(src/main.py:165-166). -/
def prodPairsOf (r : RandomOracle) (num_products : Nat) : List (Nat × Int) :=
  (gen_products r num_products).map (fun p => (p.id, p.price))

/-- `DatabaseManager.generate_dummy_data` (src/main.py:124-196): tables are
cleared, users and products inserted, the active user ids and the product
`(id, price)` pairs read back, and 200 orders generated; an uncaught
exception (`random.choice` on an empty sequence) aborts the routine before
its final commit. -/
def generate_dummy_data (r : RandomOracle) (num_users num_products : Nat) :
    Except String GenResult :=
  match gen_orders r (activeIdsOf r num_users) (prodPairsOf r num_products) 200 0 1 with
  | .error e => .error e
  | .ok p => .ok { users := gen_users r num_users, products := gen_products r num_products,
                   orders := p.1, order_items := p.2 }

/-- The orders committed by a run, empty when the run aborted. -/
def resultOrders (x : Except String GenResult) : List Order :=
  match x with
  | .error _ => []
  | .ok g => g.orders

/-- The order items committed by a run, empty when the run aborted. -/
def resultItems (x : Except String GenResult) : List OrderItem :=
  match x with
  | .error _ => []
  | .ok g => g.order_items

/-- The users committed by a run, empty when the run aborted. -/
def resultUsers (x : Except String GenResult) : List User :=
  match x with
  | .error _ => []
  | .ok g => g.users

/-! ## Properties of the order transaction -/

/-- A requested line item fails validation: its product is missing, or the
product's stock is below the requested quantity (src/main.py:410). -/
def itemInvalidB (db : DB) (it : ItemReq) : Bool :=
  match findProduct db it.product_id with
  | none => true
  | some p => decide (p.stock < (it.quantity : Int))

/-- When some item fails validation, the total-computation loop raises. -/
lemma computeTotal_eq_none (db : DB) :
    ∀ items : List ItemReq, (∃ it ∈ items, itemInvalidB db it = true) →
      computeTotal db items = none := by
  intro items
  induction items with
  | nil => rintro ⟨it, hmem, _⟩; cases hmem
  | cons a rest ih =>
    rintro ⟨it, hmem, hbad⟩
    rcases List.mem_cons.mp hmem with heq | hmem2
    · subst heq
      unfold computeTotal
      unfold itemInvalidB at hbad
      cases hfp : findProduct db it.product_id with
      | none => simp [hfp]
      | some p =>
        rw [hfp] at hbad
        simp only [decide_eq_true_eq] at hbad
        simp [hfp, hbad]
    · unfold computeTotal
      cases hfp : findProduct db a.product_id with
      | none => simp [hfp]
      | some p =>
        by_cases hs : p.stock < (a.quantity : Int)
        · simp [hfp, hs]
        · simp [hfp, hs, ih ⟨it, hmem2, hbad⟩]

/-- C1: whenever some requested line item references a missing product or one
with stock below the requested quantity, `process_order_transaction` returns
`False` and the database state it leaves behind is exactly the entry state —
no order row, no order-item row, no stock change, no audit entry. -/
theorem process_order_invalid_item_rolls_back (db : DB) (uid : Nat) (items : List ItemReq)
    (h : ∃ it ∈ items, itemInvalidB db it = true) :
    process_order_transaction db uid items = (false, db) := by
  unfold process_order_transaction
  rw [computeTotal_eq_none db items h]

/-- A store with one user and one product whose stock is 3. -/
def dbStock3 : DB :=
  { users := [{ id := 1, username := "alice", email := "alice@example.com",
                password_hash := "h", status := "active" }],
    products := [{ id := 1, name := "Widget", category := "Home", price := 10, stock := 3 }],
    orders := [], order_items := [], audit_log := [],
    triggers_installed := true, next_user_id := 2, next_order_id := 1 }

/-- Witness for C1: ordering quantity 5 of the stock-3 product fails and
leaves the database exactly as it was. -/
theorem process_order_invalid_item_rolls_back_witness :
    (∃ it ∈ [ItemReq.mk 1 5], itemInvalidB dbStock3 it = true) ∧
      process_order_transaction dbStock3 1 [ItemReq.mk 1 5] = (false, dbStock3) :=
  ⟨by decide, process_order_invalid_item_rolls_back dbStock3 1 [ItemReq.mk 1 5] (by decide)⟩

/-- C10: an empty line-item list is not rejected: the call returns `True` and
commits one order row with total 0 and status `pending`, no order-item rows,
untouched products, and one audit-log entry. -/
theorem process_order_empty_items_commits (db : DB) (uid : Nat) :
    process_order_transaction db uid [] =
      (true, { db with
                orders := db.orders ++
                  [{ id := db.next_order_id, user_id := uid, total_amount := 0,
                     order_date := 0, status := "pending" }],
                next_order_id := db.next_order_id + 1,
                audit_log := db.audit_log ++
                  [{ table_name := "orders", action := "CREATE", user_id := some uid,
                     details := { order_id := db.next_order_id, total := 0 } }] }) := rfl

/-- A store with two products, both stock 10, prices 5 and 7. -/
def dbTwoProducts : DB :=
  { users := [{ id := 1, username := "bob", email := "bob@example.com",
                password_hash := "h", status := "active" }],
    products := [{ id := 1, name := "A", category := "Home", price := 5, stock := 10 },
                 { id := 2, name := "B", category := "Home", price := 7, stock := 10 }],
    orders := [], order_items := [], audit_log := [],
    triggers_installed := false, next_user_id := 2, next_order_id := 1 }

/-- C2 (code defect): once `create_triggers` has installed
`update_product_stock`, a two-line order on products with ample stock
succeeds, but each stock is decremented twice — once by the trigger on the
item insert and once by the transaction's explicit UPDATE — so stock 10 with
quantity 2 ends at 6 (not 8) and stock 10 with quantity 1 ends at 8 (not 9). -/
theorem process_order_double_decrements_under_trigger :
    (process_order_transaction (create_triggers dbTwoProducts) 1
        [ItemReq.mk 1 2, ItemReq.mk 2 1]).1 = true ∧
      stockOf (process_order_transaction (create_triggers dbTwoProducts) 1
        [ItemReq.mk 1 2, ItemReq.mk 2 1]).2 1 = some 6 ∧
      stockOf (process_order_transaction (create_triggers dbTwoProducts) 1
        [ItemReq.mk 1 2, ItemReq.mk 2 1]).2 2 = some 8 := by decide

/-- A store with one product of stock 5. -/
def dbStock5 : DB :=
  { users := [{ id := 1, username := "carol", email := "carol@example.com",
                password_hash := "h", status := "active" }],
    products := [{ id := 1, name := "C", category := "Home", price := 1, stock := 5 }],
    orders := [], order_items := [], audit_log := [],
    triggers_installed := false, next_user_id := 2, next_order_id := 1 }

/-- C3 (code defect): with the stock trigger installed, an accepted order of
quantity 3 against stock 5 drives the stored stock to -1: validation passes
(5 ≥ 3), the trigger decrements to 2, and the explicit UPDATE decrements
unconditionally to -1, breaking the non-negativity invariant. -/
theorem process_order_violates_stock_invariant :
    (process_order_transaction (create_triggers dbStock5) 1 [ItemReq.mk 1 3]).1 = true ∧
      stockOf (process_order_transaction (create_triggers dbStock5) 1 [ItemReq.mk 1 3]).2 1 =
        some (-1) := by decide

/-! ## Properties of order deletion and of the DDL routine -/

/-- C7: with the triggers installed, deleting an order that still has
order-item rows is rejected by `prevent_order_deletion`, and the whole
database — the order row and its item rows included — is left unchanged. -/
theorem delete_order_with_items_rejected (db : DB) (oid : Nat)
    (htr : db.triggers_installed = true)
    (h : ∃ o ∈ db.orders, o.id = oid ∧ ∃ it ∈ db.order_items, it.order_id = oid) :
    attempt_delete_order db oid = (false, db) := by
  obtain ⟨o, ho, hid, it, hit, hoid⟩ := h
  have hany : db.orders.any (fun o => o.id == oid &&
      db.order_items.any (fun x => x.order_id == o.id)) = true := by
    rw [List.any_eq_true]
    refine ⟨o, ho, ?_⟩
    rw [Bool.and_eq_true, List.any_eq_true]
    exact ⟨by simp [hid], ⟨it, hit, by simp [hoid, hid]⟩⟩
  unfold attempt_delete_order delete_order
  simp [htr, hany]

/-- A store holding one order that still owns one item row. -/
def dbWithOrder : DB :=
  { users := [{ id := 1, username := "dave", email := "dave@example.com",
                password_hash := "h", status := "active" }],
    products := [{ id := 1, name := "D", category := "Home", price := 2, stock := 4 }],
    orders := [{ id := 7, user_id := 1, total_amount := 2, order_date := 0,
                 status := "pending" }],
    order_items := [{ id := 1, order_id := 7, product_id := 1, quantity := 1, price := 2 }],
    audit_log := [], triggers_installed := true, next_user_id := 2, next_order_id := 8 }

/-- Witness for C7: deleting order 7, which still has an item row, fails and
changes nothing. -/
theorem delete_order_with_items_rejected_witness :
    dbWithOrder.triggers_installed = true ∧
      (∃ o ∈ dbWithOrder.orders, o.id = 7 ∧
        ∃ it ∈ dbWithOrder.order_items, it.order_id = 7) ∧
      attempt_delete_order dbWithOrder 7 = (false, dbWithOrder) :=
  ⟨rfl, by decide, delete_order_with_items_rejected dbWithOrder 7 rfl (by decide)⟩

/-- C8: when `last_login` already exists on `users`, the duplicate-column DDL
error is caught and treated as a no-op — the routine completes with the
column list unchanged — and on any schema a first call followed by a second
call is safe: the second call reproduces the first call's schema. -/
theorem modify_database_structure_conflict_is_noop (s : Schema)
    (h : "last_login" ∈ s.users_columns) :
    modify_database_structure s =
      .ok { users_columns := s.users_columns, has_active_user_orders_view := true,
            has_session_data_table := true } ∧
      ∀ t : Schema, ∃ u : Schema,
        modify_database_structure t = .ok u ∧ modify_database_structure u = .ok u := by
  constructor
  · unfold modify_database_structure alter_table_add_column
    simp [h]
  · intro t
    by_cases hm : "last_login" ∈ t.users_columns
    · refine ⟨{ users_columns := t.users_columns, has_active_user_orders_view := true,
                has_session_data_table := true }, ?_, ?_⟩
      · unfold modify_database_structure alter_table_add_column
        simp [hm]
      · unfold modify_database_structure alter_table_add_column
        simp [hm]
    · refine ⟨{ users_columns := t.users_columns ++ ["last_login"],
                has_active_user_orders_view := true, has_session_data_table := true }, ?_, ?_⟩
      · unfold modify_database_structure alter_table_add_column
        simp [hm]
      · unfold modify_database_structure alter_table_add_column
        simp

/-- Witness for C8: re-running the routine on a schema that already has the
column leaves the column list untouched. -/
theorem modify_database_structure_conflict_is_noop_witness :
    ("last_login" ∈ ["id", "username", "last_login"]) ∧
      (modify_database_structure
          { users_columns := ["id", "username", "last_login"],
            has_active_user_orders_view := false, has_session_data_table := false } =
        .ok { users_columns := ["id", "username", "last_login"],
              has_active_user_orders_view := true, has_session_data_table := true } ∧
        ∀ t : Schema, ∃ u : Schema,
          modify_database_structure t = .ok u ∧ modify_database_structure u = .ok u) :=
  ⟨by decide,
   modify_database_structure_conflict_is_noop
     { users_columns := ["id", "username", "last_login"],
       has_active_user_orders_view := false, has_session_data_table := false } (by decide)⟩

/-! ## Properties of the seed generator -/

/-- `random.choice` on a list returns one of its elements. -/
lemma pyChoice_mem {α : Type} {l : List α} {d : Nat} {x : α}
    (h : pyChoice l d = .ok x) : x ∈ l := by
  cases l with
  | nil => cases h
  | cons a as =>
    have hx : (a :: as).get ⟨d % (as.length + 1), Nat.mod_lt _ (Nat.succ_pos _)⟩ = x := by
      injection h
    rw [← hx]
    exact List.get_mem _ _ _

/-- Every item the inner loop generates carries the enclosing order's id. -/
lemma gen_items_order_id (r : RandomOracle) (prods : List (Nat × Int)) (k oid : Nat) :
    ∀ n j its, gen_items r prods k oid n j = .ok its → ∀ it ∈ its, it.order_id = oid := by
  intro n
  induction n with
  | zero =>
    intro j its h it hit
    cases h
    cases hit
  | succ m ih =>
    intro j its h it hit
    unfold gen_items at h
    cases hp : pyChoice prods (r.itemProd k j) with
    | error e => rw [hp] at h; cases h
    | ok pr =>
      rw [hp] at h
      cases hr : gen_items r prods k oid m (j + 1) with
      | error e => rw [hr] at h; cases h
      | ok rest =>
        rw [hr] at h
        cases h
        rcases List.mem_cons.mp hit with heq | hmem
        · subst heq; rfl
        · exact ih (j + 1) rest hr it hmem

/-- What one generated order satisfies: its id is the fresh rowid, its owner
comes from the active-id list, its items carry its id, and its stored total
is the sum of `price * quantity` over its items. -/
lemma gen_one_order_spec {r : RandomOracle} {a : List Nat} {prods : List (Nat × Int)}
    {k oid : Nat} {o : Order} {its : List OrderItem}
    (h : gen_one_order r a prods k oid = .ok (o, its)) :
    o.id = oid ∧ o.user_id ∈ a ∧ (∀ it ∈ its, it.order_id = oid) ∧
      o.total_amount = (its.map (fun it => it.price * (it.quantity : Int))).sum := by
  unfold gen_one_order at h
  cases hu : pyChoice a (r.ordUser k) with
  | error e => rw [hu] at h; cases h
  | ok uid =>
    rw [hu] at h
    cases hi : gen_items r prods k oid (1 + r.ordNumItems k % 5) 0 with
    | error e => rw [hi] at h; cases h
    | ok its0 =>
      rw [hi] at h
      cases h
      exact ⟨rfl, pyChoice_mem hu, gen_items_order_id r prods k oid _ 0 its hi, rfl⟩

/-- The invariant of the order loop: starting from fresh rowid `oid`, every
produced order has id at least `oid`, every produced item names an order id
at least `oid`, every order's owner is in the active-id list, and every
order's total is the sum of `price * quantity` over exactly the produced
items that carry its id. -/
lemma gen_orders_spec (r : RandomOracle) (a : List Nat) (prods : List (Nat × Int)) :
    ∀ n k oid os its, gen_orders r a prods n k oid = .ok (os, its) →
      (∀ o ∈ os, oid ≤ o.id) ∧ (∀ it ∈ its, oid ≤ it.order_id) ∧
      (∀ o ∈ os, o.user_id ∈ a) ∧
      (∀ o ∈ os, o.total_amount =
        ((its.filter (fun it => it.order_id == o.id)).map
          (fun it => it.price * (it.quantity : Int))).sum) := by
  intro n
  induction n with
  | zero =>
    intro k oid os its h
    cases h
    exact ⟨by simp, by simp, by simp, by simp⟩
  | succ m ih =>
    intro k oid os its h
    unfold gen_orders at h
    cases h1 : gen_one_order r a prods k oid with
    | error e => rw [h1] at h; cases h
    | ok p =>
      rw [h1] at h
      cases h2 : gen_orders r a prods m (k + 1) (oid + 1) with
      | error e => rw [h2] at h; cases h
      | ok rest =>
        rw [h2] at h
        cases h
        obtain ⟨hid, huser, hitems, htot⟩ :=
          @gen_one_order_spec r a prods k oid p.1 p.2 (by rw [h1])
        obtain ⟨ih1, ih2, ih3, ih4⟩ := ih (k + 1) (oid + 1) rest.1 rest.2 (by rw [h2])
        have hids : ∀ o ∈ p.1 :: rest.1, oid ≤ o.id := by
          intro o ho
          rcases List.mem_cons.mp ho with heq | hmem
          · subst heq; exact le_of_eq hid.symm
          · exact le_trans (Nat.le_succ oid) (ih1 o hmem)
        have hitids : ∀ it ∈ p.2 ++ rest.2, oid ≤ it.order_id := by
          intro it hit
          rcases List.mem_append.mp hit with hmem | hmem
          · exact le_of_eq (hitems it hmem).symm
          · exact le_trans (Nat.le_succ oid) (ih2 it hmem)
        refine ⟨hids, hitids, ?_, ?_⟩
        · intro o ho
          rcases List.mem_cons.mp ho with heq | hmem
          · subst heq; exact huser
          · exact ih3 o hmem
        · intro o ho
          rcases List.mem_cons.mp ho with heq | hmem
          · subst heq
            have hkeep : p.2.filter (fun it => it.order_id == p.1.id) = p.2 := by
              apply List.filter_eq_self.mpr
              intro it hit
              simp [hitems it hit, hid]
            have hdrop : rest.2.filter (fun it => it.order_id == p.1.id) = [] := by
              apply List.filter_eq_nil_iff.mpr
              intro it hit
              have : oid + 1 ≤ it.order_id := ih2 it hit
              simp only [beq_iff_eq]
              omega
            rw [List.filter_append, hkeep, hdrop, List.append_nil]
            exact htot
          · have hne : p.2.filter (fun it => it.order_id == o.id) = [] := by
              apply List.filter_eq_nil_iff.mpr
              intro it hit
              have h1' : it.order_id = oid := hitems it hit
              have h2' : oid + 1 ≤ o.id := ih1 o hmem
              simp only [beq_iff_eq]
              omega
            rw [List.filter_append, hne, List.nil_append]
            exact ih4 o hmem

/-- C4: every order committed by `generate_dummy_data` stores as
`total_amount` exactly the sum of `price * quantity` over the order-item rows
generated for it. -/
theorem generated_totals_match_items (r : RandomOracle) (nu np : Nat) (o : Order)
    (ho : o ∈ resultOrders (generate_dummy_data r nu np)) :
    o.total_amount =
      (((resultItems (generate_dummy_data r nu np)).filter
          (fun it => it.order_id == o.id)).map
        (fun it => it.price * (it.quantity : Int))).sum := by
  unfold generate_dummy_data resultOrders resultItems at *
  cases hg : gen_orders r (activeIdsOf r nu) (prodPairsOf r np) 200 0 1 with
  | error e => rw [hg] at ho; cases ho
  | ok p =>
    rw [hg] at ho
    exact (gen_orders_spec r _ _ 200 0 1 p.1 p.2 (by rw [hg])).2.2.2 o ho

/-- C5: every order committed by `generate_dummy_data` names a committed user
whose status was `active` at generation time. -/
theorem generated_orders_reference_active_users (r : RandomOracle) (nu np : Nat) (o : Order)
    (ho : o ∈ resultOrders (generate_dummy_data r nu np)) :
    ∃ u, u ∈ resultUsers (generate_dummy_data r nu np) ∧
      u.id = o.user_id ∧ u.status = "active" := by
  unfold generate_dummy_data resultOrders resultUsers at *
  cases hg : gen_orders r (activeIdsOf r nu) (prodPairsOf r np) 200 0 1 with
  | error e => rw [hg] at ho; cases ho
  | ok p =>
    rw [hg] at ho
    have hmem : o.user_id ∈ activeIdsOf r nu :=
      (gen_orders_spec r _ _ 200 0 1 p.1 p.2 (by rw [hg])).2.2.1 o ho
    unfold activeIdsOf at hmem
    obtain ⟨u, hu, hid⟩ := List.mem_map.mp hmem
    obtain ⟨humem, hstat⟩ := List.mem_filter.mp hu
    exact ⟨u, humem, hid, by simpa using hstat⟩

/-- When the active-id list is empty, the very first order draw raises. -/
lemma gen_orders_empty_active (r : RandomOracle) (prods : List (Nat × Int)) (n k oid : Nat) :
    gen_orders r [] prods (n + 1) k oid = .error "Cannot choose from an empty sequence" := rfl

/-- C6: if zero active users exist when order generation begins, the routine
aborts with the IndexError from `random.choice` on the empty sequence rather
than committing a result with zero orders. -/
theorem generate_dummy_data_fails_fast_without_active_users (r : RandomOracle) (nu np : Nat)
    (h : activeIdsOf r nu = []) :
    generate_dummy_data r nu np = .error "Cannot choose from an empty sequence" := by
  unfold generate_dummy_data
  rw [h]
  rw [show (200 : Nat) = 199 + 1 from rfl, gen_orders_empty_active]

/-- A deterministic draw stream: every draw is the first candidate. -/
def oracleZero : RandomOracle :=
  { userSuffix := fun _ => "aaaaa", userStatus := fun _ => 0,
    prodSuffix := fun _ => "bbbb", prodCat := fun _ => 0, prodPrice := fun _ => 10,
    prodStock := fun _ => 5, ordUser := fun _ => 0, ordDays := fun _ => 0,
    ordStatus := fun _ => 0, ordNumItems := fun _ => 0,
    itemProd := fun _ _ => 0, itemQty := fun _ _ => 0 }

/-- A draw stream whose every user-status draw lands on `inactive`. -/
def oracleInactive : RandomOracle := { oracleZero with userStatus := fun _ => 1 }

set_option maxRecDepth 40000 in
/-- Witness for C4: in a run with one user and one product, the first
committed order stores total 10 = 10 × 1, the sum over its single item. -/
theorem generated_totals_match_items_witness :
    (Order.mk 1 1 10 0 "pending") ∈ resultOrders (generate_dummy_data oracleZero 1 1) ∧
      (Order.mk 1 1 10 0 "pending").total_amount =
        (((resultItems (generate_dummy_data oracleZero 1 1)).filter
            (fun it => it.order_id == (Order.mk 1 1 10 0 "pending").id)).map
          (fun it => it.price * (it.quantity : Int))).sum :=
  ⟨by decide, generated_totals_match_items oracleZero 1 1 (Order.mk 1 1 10 0 "pending")
    (by decide)⟩

set_option maxRecDepth 40000 in
/-- Witness for C5: the first committed order of the same run references a
committed user whose status is `active`. -/
theorem generated_orders_reference_active_users_witness :
    (Order.mk 1 1 10 0 "pending") ∈ resultOrders (generate_dummy_data oracleZero 1 1) ∧
      ∃ u, u ∈ resultUsers (generate_dummy_data oracleZero 1 1) ∧
        u.id = (Order.mk 1 1 10 0 "pending").user_id ∧ u.status = "active" :=
  ⟨by decide, generated_orders_reference_active_users oracleZero 1 1
    (Order.mk 1 1 10 0 "pending") (by decide)⟩

/-- Witness for C6: with the single generated user inactive, the run aborts
with the empty-sequence IndexError. -/
theorem generate_dummy_data_fails_fast_witness :
    activeIdsOf oracleInactive 1 = [] ∧
      generate_dummy_data oracleInactive 1 1 =
        .error "Cannot choose from an empty sequence" :=
  ⟨by decide,
   generate_dummy_data_fails_fast_without_active_users oracleInactive 1 1 (by decide)⟩

/-! ## Properties of credential hashing -/

/-- The `password_hash` column of the user row a secure-creation call just
inserted. -/
def storedCredential (p : DB × Nat) : Option String :=
  p.1.users.getLast?.map (fun u => u.password_hash)

set_option maxRecDepth 40000 in
/-- C9: hashing is deterministic — two secure-creation calls with the same
password, whatever the prior state, usernames and emails, store the same
credential value — and on the password strings the program actually hashes
(the seeded `password{i}` family and the demonstration password) distinct
passwords store distinct values. -/
theorem hash_password_deterministic_and_injective_on_test_passwords :
    (∀ db1 db2 : DB, ∀ un1 em1 un2 em2 p : String,
      storedCredential (create_user_secure db1 un1 em1 p) =
        storedCredential (create_user_secure db2 un2 em2 p)) ∧
      List.Pairwise (fun a b => a ≠ b ∧ hash_password a ≠ hash_password b)
        ["password0", "password1", "password2", "MySecret123"] := by
  constructor
  · intro db1 db2 un1 em1 un2 em2 p
    simp [storedCredential, create_user_secure, List.getLast?_concat]
  · decide
